import Mathlib

/-!
Shallow embedding of the chatbot in src/chatbot.py: the offline fallback
matcher, the response resolver, the carbon score estimator, and the
chat-input handling flow, together with theorems settling the claims.
-/

/-- Boolean test that the character list `pat` is a prefix of `s`
(character-by-character comparison). -/
def startsWithChars : List Char → List Char → Bool
  | [], _ => true
  | _ :: _, [] => false
  | p :: ps, c :: cs => p == c && startsWithChars ps cs

/-- Boolean substring search: `containsChars pat s` is true when `pat`
occurs contiguously inside `s`.  This models the Python membership test
`pat in s` on strings. -/
def containsChars (pat : List Char) : List Char → Bool
  | [] => pat.isEmpty
  | c :: cs => startsWithChars pat (c :: cs) || containsChars pat cs

/-- The Python expression `pat in s` for strings: substring containment. -/
def strContains (s pat : String) : Bool :=
  containsChars pat.data s.data

/-- Lowercase a single character over the basic latin range, as
Char.toLower does; Python str.lower agrees with this on that range. -/
def lowerChar (c : Char) : Char :=
  if 65 ≤ c.toNat && c.toNat ≤ 90 then Char.ofNat (c.toNat + 32) else c

/-- The Python expression `s.lower()`, restricted to basic latin letters. -/
def strToLower (s : String) : String :=
  String.mk (s.data.map lowerChar)

/-- The fixed joke reply string (src/chatbot.py line 29). -/
def jokeString : String := "Why did the tomato blush? Because it saw the salad dressing! 😄"

/-- The fixed story reply string (src/chatbot.py line 31). -/
def storyString : String := "Once upon a time a little star learned to shine. The end. ✨"

/-- The fixed riddle reply string (src/chatbot.py line 33). -/
def riddleString : String := "What has keys but can\x27t open locks? A keyboard!"

/-- The fixed generic apology/guidance string (src/chatbot.py line 34). -/
def genericString : String := "I can\x27t reach the helper brain right now, but I\x27d love to help — try rephrasing your question or check your API key."

/-- Keyword list of the first branch of offline_reply (line 28). -/
def jokeKeywords : List String := ["joke", "funny", "make me laugh"]

/-- Keyword list of the second branch of offline_reply (line 30). -/
def storyKeywords : List String := ["story", "bedtime", "tell me a story"]

/-- Keyword list of the third branch of offline_reply (line 32). -/
def riddleKeywords : List String := ["riddle", "puzzle"]

/-- Embedding of offline_reply (src/chatbot.py lines 25-34): lowercase the
query, then test the three keyword lists in order, first match wins. -/
def offline_reply (user_query : String) : String :=
  let q := strToLower user_query
  if jokeKeywords.any (fun k => strContains q k) then jokeString
  else if storyKeywords.any (fun k => strContains q k) then storyString
  else if riddleKeywords.any (fun k => strContains q k) then riddleString
  else genericString

/-- Outcome of the remote exchange attempted inside the try-block of
get_gemini_response (src/chatbot.py lines 40-42).

* `raiseErr msg`: an exception was raised, either by
  `chat_session.send_message` or while reading the `text` attribute.
* `result textAttr strRepr`: `send_message` returned a response object;
  `textAttr` is `some t` when the object has a `text` attribute with value
  `t`, and `none` when the attribute is absent (so that
  `getattr(response, "text", str(response))` falls back to the default);
  `strRepr` is `str(response)`. -/
inductive RemoteOutcome where
  | raiseErr (msg : String)
  | result (textAttr : Option String) (strRepr : String)
deriving DecidableEq

/-- Embedding of get_gemini_response (src/chatbot.py lines 37-47): when
`use_gemini` is true, attempt the remote exchange; an exception is caught
and answered with offline_reply, a returned response yields
`getattr(response, "text", str(response))`.  When `use_gemini` is false,
answer with offline_reply directly.  The `st.error` notice on the
exception path is a UI side effect outside this embedding. -/
def get_gemini_response (use_gemini : Bool) (outcome : RemoteOutcome) (user_query : String) : String :=
  if use_gemini then
    match outcome with
    | RemoteOutcome.raiseErr _ => offline_reply user_query
    | RemoteOutcome.result textAttr strRepr => textAttr.getD strRepr
  else
    offline_reply user_query

/-- A chat message record {"role": ..., "text": ...} (src/chatbot.py
lines 167 and 172). -/
structure Message where
  role : String
  text : String
deriving DecidableEq

/-- The session state relevant to the claims: the module-level
`use_gemini` flag (the persisted Mode) and
`st.session_state.chat_history`. -/
structure Session where
  use_gemini : Bool
  chat_history : List Message
deriving DecidableEq

/-- Embedding of the chat input handling (src/chatbot.py lines 165-172):
when the submitted input is truthy (non-empty), append the user message,
resolve the reply, and append the assistant message.  Nothing else in the
session is written; in particular `use_gemini` is never reassigned. -/
def handle_user_input (s : Session) (outcome : RemoteOutcome) (user_input : String) : Session :=
  if user_input = "" then s
  else
    { s with chat_history :=
        (s.chat_history ++ [{ role := "user", text := user_input }]) ++
          [{ role := "assistant",
             text := get_gemini_response s.use_gemini outcome user_input }] }

/-- Embedding of compute_carbon_score (src/chatbot.py lines 138-144):
baseline 12 plus one per history entry, clamped to [0, 100]. -/
def compute_carbon_score (history : List Message) : Int :=
  let base : Int := 12
  let per_message : Int := 1
  let score := base + (history.length : Int) * per_message
  min (max score 0) 100

/-- The formula of the spec contract for the score, stated on an arbitrary
integer history length: clamp(12 + history_length, 0, 100). -/
def score_spec (history_length : Int) : Int :=
  min (max (12 + history_length) 0) 100

/-- Claim C1: with Mode Online, an exception raised by the remote call
makes resolve return the offline matcher result, the persisted Mode stays
Online after the input is handled, and the next call still takes the
remote path. -/
theorem online_remote_failure_per_call (s : Session) (e q : String)
    (h : s.use_gemini = true) :
    get_gemini_response s.use_gemini (RemoteOutcome.raiseErr e) q = offline_reply q ∧
    (handle_user_input s (RemoteOutcome.raiseErr e) q).use_gemini = true ∧
    (∀ t r q2,
      get_gemini_response (handle_user_input s (RemoteOutcome.raiseErr e) q).use_gemini
        (RemoteOutcome.result (some t) r) q2 = t) := by
  have hm : (handle_user_input s (RemoteOutcome.raiseErr e) q).use_gemini = true := by
    unfold handle_user_input
    split <;> simp [h]
  refine ⟨by simp [get_gemini_response, h], hm, ?_⟩
  intro t r q2
  rw [hm]
  simp [get_gemini_response]

/-- Witness for C1 at a concrete Online session. -/
theorem online_remote_failure_witness :
    get_gemini_response true (RemoteOutcome.raiseErr "boom") "hi" = offline_reply "hi" ∧
    (handle_user_input ⟨true, []⟩ (RemoteOutcome.raiseErr "boom") "hi").use_gemini = true ∧
    (∀ t r q2,
      get_gemini_response
        (handle_user_input ⟨true, []⟩ (RemoteOutcome.raiseErr "boom") "hi").use_gemini
        (RemoteOutcome.result (some t) r) q2 = t) :=
  online_remote_failure_per_call ⟨true, []⟩ "boom" "hi" rfl

/-- Claim C2: resolve is total; every execution path, the failure paths
included, returns a string, which is either the offline matcher result or
the text extracted from a returned response object. -/
theorem resolve_total_string_result (use_gemini : Bool) (o : RemoteOutcome) (q : String) :
    get_gemini_response use_gemini o q = offline_reply q ∨
    ∃ t r, o = RemoteOutcome.result t r ∧
      get_gemini_response use_gemini o q = Option.getD t r := by
  cases use_gemini with
  | false => exact Or.inl (by simp [get_gemini_response])
  | true =>
    cases o with
    | raiseErr e => exact Or.inl (by simp [get_gemini_response])
    | result t r => exact Or.inr ⟨t, r, rfl, by simp [get_gemini_response]⟩

/-- Claim C3: with Mode Offline, resolve equals the offline matcher on
every query, whatever the remote outcome would have been. -/
theorem offline_mode_resolve_eq_match (o : RemoteOutcome) (q : String) :
    get_gemini_response false o q = offline_reply q := by
  simp [get_gemini_response]

/-- Claim C4 counterexample: in Online mode a response object without a
text attribute makes resolve return str(response), not the offline
matcher result. -/
theorem missing_text_counterexample :
    get_gemini_response true (RemoteOutcome.result none "response object") "hello"
        = "response object" ∧
    get_gemini_response true (RemoteOutcome.result none "response object") "hello"
        ≠ offline_reply "hello" := by
  decide

/-- Claim C4 as amended: in Online mode every exception raised during the
remote exchange is caught and answered with the offline matcher result,
while a response that returns successfully yields its text attribute when
present and str(response) otherwise. -/
theorem online_failure_paths :
    (∀ e q, get_gemini_response true (RemoteOutcome.raiseErr e) q = offline_reply q) ∧
    (∀ t r q, get_gemini_response true (RemoteOutcome.result t r) q = Option.getD t r) := by
  constructor
  · intro e q
    simp [get_gemini_response]
  · intro t r q
    simp [get_gemini_response]

/-- Claim C5: a query containing both a joke keyword and a story keyword
returns the joke string, since the joke set is tested first. -/
theorem joke_beats_story (query : String)
    (hj : ∃ k, k ∈ jokeKeywords ∧ strContains (strToLower query) k = true)
    (_hs : ∃ k, k ∈ storyKeywords ∧ strContains (strToLower query) k = true) :
    offline_reply query = jokeString := by
  have h : (jokeKeywords.any fun k => strContains (strToLower query) k) = true := by
    rw [List.any_eq_true]
    exact hj
  simp [offline_reply, h]

/-- Witness for C5 at a query containing both "funny" and "story". -/
theorem joke_beats_story_witness :
    (∃ k, k ∈ jokeKeywords ∧ strContains (strToLower "tell me a funny story") k = true) ∧
    (∃ k, k ∈ storyKeywords ∧ strContains (strToLower "tell me a funny story") k = true) ∧
    offline_reply "tell me a funny story" = jokeString :=
  ⟨⟨"funny", by decide, by decide⟩, ⟨"story", by decide, by decide⟩,
    joke_beats_story "tell me a funny story"
      ⟨"funny", by decide, by decide⟩ ⟨"story", by decide, by decide⟩⟩

/-- Claim C6: every query whose lowercasing contains "joke" gets the joke
string. -/
theorem joke_keyword_returns_joke (query : String)
    (h : strContains (strToLower query) "joke" = true) :
    offline_reply query = jokeString := by
  have hj : (jokeKeywords.any fun k => strContains (strToLower query) k) = true := by
    rw [List.any_eq_true]
    exact ⟨"joke", by simp [jokeKeywords], h⟩
  simp [offline_reply, hj]

/-- Witness for C6 at an upper-case query. -/
theorem joke_keyword_returns_joke_witness :
    strContains (strToLower "Tell me a JOKE") "joke" = true ∧
    offline_reply "Tell me a JOKE" = jokeString :=
  ⟨by decide, joke_keyword_returns_joke "Tell me a JOKE" (by decide)⟩

/-- Claim C7 counterexample: "a funny story" contains "story" yet gets the
joke string, because the joke set is tested first. -/
theorem story_keyword_counterexample :
    strContains (strToLower "a funny story") "story" = true ∧
    offline_reply "a funny story" ≠ storyString := by
  decide

/-- Claim C7 as amended: a query containing "story" or "bedtime" and no
joke keyword gets the story string; a query containing "riddle" or
"puzzle" and no joke or story keyword gets the riddle string; a query
containing none of the listed keywords gets the generic string. -/
theorem keyword_branches_with_priority :
    (∀ q, (strContains (strToLower q) "story" = true ∨
        strContains (strToLower q) "bedtime" = true) →
      (jokeKeywords.any fun k => strContains (strToLower q) k) = false →
      offline_reply q = storyString) ∧
    (∀ q, (strContains (strToLower q) "riddle" = true ∨
        strContains (strToLower q) "puzzle" = true) →
      (jokeKeywords.any fun k => strContains (strToLower q) k) = false →
      (storyKeywords.any fun k => strContains (strToLower q) k) = false →
      offline_reply q = riddleString) ∧
    (∀ q, (jokeKeywords.any fun k => strContains (strToLower q) k) = false →
      (storyKeywords.any fun k => strContains (strToLower q) k) = false →
      (riddleKeywords.any fun k => strContains (strToLower q) k) = false →
      offline_reply q = genericString) := by
  refine ⟨?_, ?_, ?_⟩
  · intro q h hj
    have hs : (storyKeywords.any fun k => strContains (strToLower q) k) = true := by
      rw [List.any_eq_true]
      rcases h with h | h
      · exact ⟨"story", by simp [storyKeywords], h⟩
      · exact ⟨"bedtime", by simp [storyKeywords], h⟩
    simp [offline_reply, hj, hs]
  · intro q h hj hs
    have hr : (riddleKeywords.any fun k => strContains (strToLower q) k) = true := by
      rw [List.any_eq_true]
      rcases h with h | h
      · exact ⟨"riddle", by simp [riddleKeywords], h⟩
      · exact ⟨"puzzle", by simp [riddleKeywords], h⟩
    simp [offline_reply, hj, hs, hr]
  · intro q hj hs hr
    simp [offline_reply, hj, hs, hr]

/-- Witness for the amended C7 at three concrete queries. -/
theorem keyword_branches_witness :
    offline_reply "bedtime please" = storyString ∧
    offline_reply "a puzzle" = riddleString ∧
    offline_reply "hello there" = genericString :=
  ⟨keyword_branches_with_priority.1 "bedtime please" (Or.inr (by decide)) (by decide),
    keyword_branches_with_priority.2.1 "a puzzle" (Or.inr (by decide)) (by decide) (by decide),
    keyword_branches_with_priority.2.2 "hello there" (by decide) (by decide) (by decide)⟩

/-- Claim C8: the carbon score equals clamp(12 + history_length, 0, 100),
stays within [0, 100], and takes the stated concrete values. -/
theorem compute_carbon_score_spec (h : List Message) :
    compute_carbon_score h = score_spec (h.length : Int) ∧
    0 ≤ compute_carbon_score h ∧
    compute_carbon_score h ≤ 100 ∧
    score_spec 0 = 12 ∧ score_spec 88 = 100 ∧ score_spec 200 = 100 ∧
    compute_carbon_score [] = 12 := by
  refine ⟨by simp [compute_carbon_score, score_spec], ?_, ?_,
    by decide, by decide, by decide, by decide⟩
  · unfold compute_carbon_score
    exact le_min (le_max_right _ _) (by norm_num)
  · unfold compute_carbon_score
    exact min_le_right _ _

/-- Claim C9: handling one non-empty input appends exactly two messages,
a user message then an assistant message, to the existing history, and
from the empty history one input yields exactly the two entries. -/
theorem chat_history_appends_two (s : Session) (o : RemoteOutcome) (input : String)
    (h : input ≠ "") :
    (handle_user_input s o input).chat_history =
      s.chat_history ++
        [{ role := "user", text := input },
          { role := "assistant", text := get_gemini_response s.use_gemini o input }] ∧
    (handle_user_input ⟨s.use_gemini, []⟩ o input).chat_history =
      [{ role := "user", text := input },
        { role := "assistant", text := get_gemini_response s.use_gemini o input }] ∧
    (handle_user_input ⟨s.use_gemini, []⟩ o input).chat_history.length = 2 := by
  unfold handle_user_input
  simp [h]

/-- Witness for C9 at an Offline session with empty history. -/
theorem chat_history_appends_two_witness :
    (handle_user_input ⟨false, []⟩ (RemoteOutcome.raiseErr "") "Tell me a joke").chat_history =
      [{ role := "user", text := "Tell me a joke" },
        { role := "assistant",
          text := get_gemini_response false (RemoteOutcome.raiseErr "") "Tell me a joke" }] ∧
    (handle_user_input ⟨false, []⟩ (RemoteOutcome.raiseErr "") "Tell me a joke").chat_history =
      [{ role := "user", text := "Tell me a joke" },
        { role := "assistant",
          text := get_gemini_response false (RemoteOutcome.raiseErr "") "Tell me a joke" }] ∧
    (handle_user_input ⟨false, []⟩ (RemoteOutcome.raiseErr "") "Tell me a joke").chat_history.length = 2 :=
  chat_history_appends_two ⟨false, []⟩ (RemoteOutcome.raiseErr "") "Tell me a joke" (by decide)

/-- Claim C10: offline_reply is total and its value is always one of the
four fixed strings; the empty query gets the generic string. -/
theorem offline_reply_four_values (q : String) :
    (offline_reply q = jokeString ∨ offline_reply q = storyString ∨
      offline_reply q = riddleString ∨ offline_reply q = genericString) ∧
    offline_reply "" = genericString := by
  constructor
  · unfold offline_reply
    dsimp only
    split
    · exact Or.inl rfl
    · split
      · exact Or.inr (Or.inl rfl)
      · split
        · exact Or.inr (Or.inr (Or.inl rfl))
        · exact Or.inr (Or.inr (Or.inr rfl))
  · decide
